import Mathlib

/-!
# Verification of the adhoc trade lifecycle supervisor

A shallow embedding, in Lean 4, of the trade lifecycle supervisor of the
`coindcx-rest-api` repository (`adhoc_trade.py` together with
`src/risk_manager.py`), and proofs of the behavioural properties claimed
about it.

Modelling conventions:
* Python floats are modelled as exact rationals (`ℚ`); every numeric value
  the proofs exercise is an exact decimal, where the Python float behaviour
  and the rational behaviour agree.
* Python's `round` builtin (round half to even) is modelled by `pyRound`,
  and the `float(f"{x:.3f}")` re-formatting by `fmt3`.
* JSON values held in the persisted trade dictionaries are modelled by the
  inductive `JVal`; Python dictionaries by insertion-ordered association
  lists (`Dict`), with `dictGet`/`dictSet` mirroring `d.get(k)` /
  `d[k] = v`.
* I/O against the market-data reader and the execution gateway is modelled
  by an oracle environment (the values the remote calls would return) plus
  an explicit trace of emitted `Action`s, so that theorems can speak about
  which remote calls a code path issues.  `print` calls and `time.sleep`
  are invisible to the properties and are not modelled.
-/

set_option linter.unusedVariables false
set_option linter.unusedTactic false

namespace AdhocTrade

/-! ## JSON values and Python dictionaries -/

/-- A JSON value, as held in the persisted `trades.json` records and in the
gateway responses.  `jnull` doubles as Python's `None` (which is what
`dict.get` returns for an absent key). -/
inductive JVal where
  | jnull : JVal
  | jbool : Bool → JVal
  | jnum : ℚ → JVal
  | jstr : String → JVal
  | jarr : List JVal → JVal
  deriving Repr

mutual

/-- Python `==` on JSON values (structural equality). -/
def JVal.eqb : JVal → JVal → Bool
  | .jnull, .jnull => true
  | .jbool a, .jbool b => a = b
  | .jnum a, .jnum b => a = b
  | .jstr a, .jstr b => a = b
  | .jarr as, .jarr bs => JVal.eqbList as bs
  | _, _ => false

/-- Python `==` on JSON arrays, element by element. -/
def JVal.eqbList : List JVal → List JVal → Bool
  | [], [] => true
  | a :: as, b :: bs => JVal.eqb a b && JVal.eqbList as bs
  | _, _ => false

end

/-- A Python dictionary: an insertion-ordered association list with unique
keys (lookup takes the first occurrence, matching dict semantics). -/
abbrev Dict := List (String × JVal)

/-- Python `d.get(k)` — `jnull` (Python `None`) when the key is absent. -/
def dictGet : Dict → String → JVal
  | [], _ => .jnull
  | p :: ps, k => if p.1 = k then p.2 else dictGet ps k

/-- Python `d[k] = v` — replace the first binding of `k`, or append a new one. -/
def dictSet : Dict → String → JVal → Dict
  | [], k, v => [(k, v)]
  | p :: ps, k, v => if p.1 = k then (k, v) :: ps else p :: dictSet ps k v

/-! ## Python numeric and string helpers -/

/-- Python's `round` builtin: round half to even (banker's rounding). -/
def pyRound (q : ℚ) : ℤ :=
  if q - ⌊q⌋ < 1/2 then ⌊q⌋
  else if 1/2 < q - ⌊q⌋ then ⌊q⌋ + 1
  else if ⌊q⌋ % 2 = 0 then ⌊q⌋ else ⌊q⌋ + 1

/-- Python re-formatting of a float to three decimal places, as in
`main` where a float is put through a 3-decimal format string and parsed
back (round half to even on the exact value). -/
def fmt3 (q : ℚ) : ℚ :=
  (pyRound (q * 1000) : ℚ) / 1000

/-- Python truthiness of an optional order-identifier string (`None` and
`""` are falsy). -/
def optTruthy : Option String → Bool
  | none => false
  | some s => s ≠ ""

/-- ASCII upper-casing of one character, as `str.upper` does on the
direction strings used by this program. -/
def upperChar (c : Char) : Char :=
  if 'a' ≤ c ∧ c ≤ 'z' then Char.ofNat (c.toNat - 32) else c

/-- Python `s.upper()` on the ASCII strings used by this program. -/
def pyUpper (s : String) : String :=
  String.mk (s.data.map upperChar)

/-! ## RiskManager (`src/risk_manager.py`) -/

/-- Embeds `RiskManager.calculate_qty(balance, entry_price, leverage)`, with the
manager's `risk_type`/`risk_value` passed explicitly.  Division on `ℚ`
models the Python float division; no claim exercises `entry_price = 0`
(where Python would raise `ZeroDivisionError`). -/
def calculate_qty (risk_type : String) (risk_value balance entry_price leverage : ℚ) : ℚ :=
  if risk_type = "FIXED_SIZE" then risk_value
  else if risk_type = "PERCENTAGE" then
    let allocation := balance * (risk_value / 100)
    allocation / entry_price
  else if risk_type = "MARGIN" then
    let notional := risk_value * leverage
    notional / entry_price
  else if risk_type = "MARGIN_PERCENTAGE" then
    let margin_amt := balance * (risk_value / 100)
    let notional := margin_amt * leverage
    notional / entry_price
  else 0

/-- Embeds `RiskManager.calculate_targets(entry_price, direction, sl_price)`:
four risk-multiple targets at 1×..4× of `|entry − stop|`, or four copies
of `entry` when the risk distance is zero
(`src/risk_manager.py`, lines 50–70). -/
def calculate_targets (entry_price : ℚ) (direction : String) (sl_price : ℚ) : List ℚ :=
  let risk_distance := |entry_price - sl_price|
  if risk_distance = 0 then
    List.replicate 4 entry_price
  else
    (List.range' 1 4).map (fun r =>
      let reward_distance := risk_distance * (r : ℚ)
      if pyUpper direction = "LONG" then entry_price + reward_distance
      else entry_price - reward_distance)

/-- Embeds `RiskManager.get_candle_based_stop_loss(entry_price, direction,
candle_high, candle_low, multiplier)`. -/
def get_candle_based_stop_loss (entry_price : ℚ) (direction : String)
    (candle_high candle_low multiplier : ℚ) : ℚ :=
  let candle_size := |candle_high - candle_low|
  let distance := candle_size * multiplier
  if pyUpper direction = "LONG" then entry_price - distance
  else if pyUpper direction = "SHORT" then entry_price + distance
  else entry_price

/-- Embeds `RiskManager.calculate_fixed_point_targets(entry_price, direction,
points)`. -/
def calculate_fixed_point_targets (entry_price : ℚ) (direction : String)
    (points : List ℚ) : List ℚ :=
  points.map (fun p =>
    if pyUpper direction = "LONG" then entry_price + p
    else entry_price - p)

/-! ## Trade store (`adhoc_trade.py`, lines 24–53)

The persisted `trades.json` collection is a list of trade dictionaries.
Each mutating operation returns the collection as stored after the call.
-/

/-- Embeds `update_trade(trade_id, key, value)` on a given stored collection: the
first trade whose `'id'` field equals `trade_id` gets `t[key] = value` and
the collection is saved; when no trade matches, the function falls off the
loop without saving, so the stored collection is unchanged (and no
exception is raised — the embedding is a total function). -/
def update_trade (trades : List Dict) (trade_id : JVal) (key : String) (value : JVal) :
    List Dict :=
  match trades with
  | [] => []
  | t :: ts =>
    if JVal.eqb (dictGet t "id") trade_id then dictSet t key value :: ts
    else t :: update_trade ts trade_id key value

/-- Embeds `delete_trade(trade_id)`: filter out every trade whose `'id'` equals
`trade_id`, then save the result. -/
def delete_trade (trades : List Dict) (trade_id : JVal) : List Dict :=
  trades.filter (fun t => ! JVal.eqb (dictGet t "id") trade_id)

/-- The observable contents of `trades.json` while `save_trades` rewrites
it from `old` to `new`.  `save_trades` does `open(TRADES_FILE, 'w')` —
which truncates the file in place — and then streams `json.dump` output
into it, so a reader interleaved with the write can observe the original
content, a truncated/partially-written intermediate (modelled as `none`:
empty or unparsable JSON), or the completed new content.  A
temporary-file-plus-rename implementation would expose only the first and
last of these states. -/
def save_trades_states (old new : List Dict) : List (Option (List Dict)) :=
  [some old, none, some new]

/-- Embeds `load_trades()` as a function of the observable file state: a missing,
truncated or unparsable file degrades to the empty collection
(`adhoc_trade.py`, lines 24–31). -/
def load_trades (f : Option (List Dict)) : List Dict :=
  f.getD []

/-! ## The persisted TradeRecord, in typed form

`main` builds the trade dictionary at `adhoc_trade.py`, lines 276–287 with
exactly these fields; the monitor reads them back.  The typed record is
the shallow embedding of that schema. -/

/-- One persisted trade record (the dictionary saved to `trades.json`). -/
structure TradeRecord where
  id : String
  symbol : String
  side : String
  qty : ℚ
  entry_price : ℚ
  sl_order_id : Option String
  tp_order_ids : List String
  targets : List ℚ
  monitor_trigger_level : ℤ
  sl_moved : Bool
  deriving Repr, DecidableEq

/-- Embeds `add_trade(trade_data)`: append to the stored collection. -/
def add_trade (trades : List TradeRecord) (t : TradeRecord) : List TradeRecord :=
  trades ++ [t]

/-- Embeds `update_trade(trade_id, key, value)` specialised to the typed store:
update the first record with the given id in place (the monitor only ever
updates the `sl_moved` and `sl_order_id` fields). -/
def updateRecord (trades : List TradeRecord) (trade_id : String)
    (f : TradeRecord → TradeRecord) : List TradeRecord :=
  match trades with
  | [] => []
  | t :: ts => if t.id = trade_id then f t :: ts else t :: updateRecord ts trade_id f

/-- The monitor write `update_trade(trade_id, 'sl_moved', b)` on the typed store. -/
def setSlMoved (trades : List TradeRecord) (trade_id : String) (b : Bool) :
    List TradeRecord :=
  updateRecord trades trade_id (fun t => { t with sl_moved := b })

/-- The monitor write `update_trade(trade_id, 'sl_order_id', oid)` on the typed store. -/
def setSlOrderId (trades : List TradeRecord) (trade_id : String) (oid : String) :
    List TradeRecord :=
  updateRecord trades trade_id (fun t => { t with sl_order_id := some oid })

/-! ## Remote calls -/

/-- A remote call issued by the supervisor, in emission order: market-data
reads and execution-gateway calls. -/
inductive Action where
  | setLeverage (symbol : String) (leverage : ℚ)
  | getBalance (asset : String)
  | fetchKlines (symbol interval : String) (limit : ℕ)
  | editOrder (order_id : String) (new_stop_price : ℚ)
  | cancelOrder (order_id : String)
  | placeOrder (symbol side : String) (qty : ℚ) (order_type : String)
      (price : Option ℚ) (stop_price : Option ℚ)
  deriving Repr, DecidableEq

/-- Is this action an order placement (`place_order`)? -/
def Action.isOrderPlacement : Action → Bool
  | .placeOrder .. => true
  | _ => false

/-- Is this action one of the three stop-loss migration calls the monitor
can issue (`edit_order`, `cancel_order`, or a replacement `place_order`)? -/
def Action.isMigrationCall : Action → Bool
  | .editOrder .. => true
  | .cancelOrder .. => true
  | .placeOrder .. => true
  | _ => false

/-- Is this action a `LIMIT` order placement (a take-profit leg)? -/
def Action.isLimitPlacement : Action → Bool
  | .placeOrder _ _ _ order_type _ _ => order_type = "LIMIT"
  | _ => false

/-- Is this action a `STOP_MARKET` order placement (a stop-loss leg)? -/
def Action.isStopPlacement : Action → Bool
  | .placeOrder _ _ _ order_type _ _ => order_type = "STOP_MARKET"
  | _ => false

/-- The quantity of an order-placement action. -/
def Action.placeQty : Action → Option ℚ
  | .placeOrder _ _ qty _ _ _ => some qty
  | _ => none

/-- The stop-price argument of an order placement. -/
def Action.placeStopPrice : Action → Option ℚ
  | .placeOrder _ _ _ _ _ stop_price => stop_price
  | _ => none

/-! ## The monitor loop (`monitor_trade`, `adhoc_trade.py`, lines 56–132) -/

/-- What the remote endpoints would answer during one iteration of the
monitor loop:
* `price` — the close of the fetched 1-minute candle, `none` when the
  fetch returns an empty frame (`df_mon.empty`, line 79);
* `edit_code` — the `'code'` field of the `edit_order` response, `none`
  when the call returns `None` or a response without a code (the code
  treats the edit as successful exactly when the response is truthy and
  its code equals 200, line 111);
* `place_id` — the replacement `place_order` response: outer `none` for a
  falsy response, inner option for its `'id'` field (line 122). -/
structure MonEnv where
  price : Option ℚ
  edit_code : Option ℤ
  place_id : Option (Option String)
  deriving Repr

/-- The monitor's mutable state across iterations: the local `sl_order_id`
and `sl_moved` variables, plus the persisted store that `update_trade`
writes through to. -/
structure MonState where
  sl_order_id : String
  sl_moved : Bool
  store : List TradeRecord
  deriving Repr, DecidableEq

/-- The direction-appropriate trigger comparison (`adhoc_trade.py`,
lines 100–104): `hit` is set for a LONG trade when the price reaches the
trigger from below, for a SHORT trade from above. -/
def hitCheck (side : String) (curr_price trigger_pr : ℚ) : Bool :=
  if side = "LONG" ∧ trigger_pr ≤ curr_price then true
  else if side = "SHORT" ∧ curr_price ≤ trigger_pr then true
  else false

/-- One iteration of the monitor `while` loop (`adhoc_trade.py`,
lines 74–126): fetch the price (skip the iteration when the frame is
empty), evaluate the take-profit trigger only while
`monitor_trigger_level > 0 and not sl_moved`, and on a hit attempt the
in-place stop-loss edit, falling back to cancel-then-replace; the flag and
the replaced order id are persisted through `update_trade`. -/
def monitorStep (t : TradeRecord) (s : MonState) (e : MonEnv) : MonState × List Action :=
  let acts := [Action.fetchKlines t.symbol "1m" 1]
  match e.price with
  | none => (s, acts)
  | some curr_price =>
    if 0 < t.monitor_trigger_level ∧ s.sl_moved = false then
      let target_idx := t.monitor_trigger_level - 1
      if 0 ≤ target_idx ∧ target_idx < (t.targets.length : ℤ) then
        let trigger_pr := t.targets.getD target_idx.toNat 0
        if hitCheck t.side curr_price trigger_pr then
          let acts := acts ++ [Action.editOrder s.sl_order_id t.entry_price]
          if e.edit_code = some 200 then
            ({ s with sl_moved := true, store := setSlMoved s.store t.id true }, acts)
          else
            let sl_side := if t.side = "LONG" then "sell" else "buy"
            let acts := acts ++ [Action.cancelOrder s.sl_order_id,
              Action.placeOrder t.symbol sl_side t.qty "STOP_MARKET" none (some t.entry_price)]
            match e.place_id with
            | some (some new_id) =>
              if new_id ≠ "" then
                ({ sl_order_id := new_id, sl_moved := true,
                   store := setSlMoved (setSlOrderId s.store t.id new_id) t.id true }, acts)
              else (s, acts)
            | _ => (s, acts)
        else (s, acts)
      else (s, acts)
    else (s, acts)

/-- A finite execution of the monitor loop: one `monitorStep` per supplied
environment, threading the state and concatenating the emitted actions. -/
def monitorRun (t : TradeRecord) : MonState → List MonEnv → MonState × List Action
  | s, [] => (s, [])
  | s, e :: es =>
    let step := monitorStep t s e
    let rest := monitorRun t step.1 es
    (rest.1, step.2 ++ rest.2)

/-- Embeds `monitor_trade(trade, ...)`: initialise the local variables from the
record, and return before entering the loop — issuing no remote call and
leaving the store untouched — when the record's `sl_order_id` is falsy
(missing/`None`/empty, `adhoc_trade.py`, lines 69–71). -/
def monitorTrade (t : TradeRecord) (store : List TradeRecord) (envs : List MonEnv) :
    MonState × List Action :=
  let s0 : MonState :=
    { sl_order_id := t.sl_order_id.getD "", sl_moved := t.sl_moved, store := store }
  if optTruthy t.sl_order_id = false then (s0, [])
  else monitorRun t s0 envs

/-- The RESUME branch of `main` (`adhoc_trade.py`, lines 156–167): read
the persisted trades; with none, do nothing; otherwise monitor exactly the
last record (`trades[-1]`). -/
def resumeFlow (trades : List TradeRecord) (envs : List MonEnv) :
    Option (MonState × List Action) :=
  match trades.getLast? with
  | none => none
  | some t => some (monitorTrade t trades envs)

/-! ## The new-trade flow (`main`, `adhoc_trade.py`, lines 169–292) -/

/-- The configuration `main` assembles from `config.json` and the command
line before opening a trade: the direction, the leverage, the stop-loss
candle multiplier, the configured take-profit point offsets, the breakeven
trigger level, and the mapped sizing policy (`rm_type`, `pos_value`). -/
structure OpenCfg where
  side : String
  leverage : ℚ
  sl_multiplier : ℚ
  tp_points : List ℚ
  monitor_trigger : ℤ
  rm_type : String
  pos_value : ℚ
  deriving Repr

/-- What the external world supplies to one run of the new-trade flow: the
current price and the previous candle's high/low from the kline fetch, the
wallet balance, the operator's confirmation, and the gateway responses —
the entry order id, the stop-loss order id (`sl_resp.get('id')` when the
response is truthy, else `None`), and one optional id per take-profit
placement. -/
structure OpenEnv where
  current_price : ℚ
  prev_high : ℚ
  prev_low : ℚ
  balance : ℚ
  confirmed : Bool
  entry_id : Option String
  sl_id : Option String
  tp_ids : List (Option String)
  deriving Repr

/-- How one run of the new-trade flow ends. -/
inductive OpenResult where
  | invalidQuantity
  | notConfirmed
  | entryFailed
  | opened (record : TradeRecord)
  deriving Repr, DecidableEq

/-- The exchange lot step hard-coded at `adhoc_trade.py`, line 227. -/
def step_size : ℚ := 1/1000

/-- Rounding to the lot step (`adhoc_trade.py`, lines 229–230):
`steps = qty / step_size; qty = round(steps) * step_size` with Python's
round-half-to-even `round`. -/
def roundToStep (qty step : ℚ) : ℚ :=
  (pyRound (qty / step) : ℚ) * step

/-- The full quantity pipeline of `main` (lines 229–231): round to the
0.001 lot step, then re-format through `float(f"{qty:.3f}")`. -/
def roundedQty (qty : ℚ) : ℚ :=
  fmt3 (roundToStep qty step_size)

/-- The sizing dispatch of `main` (lines 217–224): `PERCENTAGE` and
`MARGIN_PERCENTAGE` size from the fetched balance, `MARGIN` passes a zero
balance, and anything else (the `FIXED_SIZE` mapping) uses `pos_value`
directly. -/
def openQty (cfg : OpenCfg) (env : OpenEnv) : ℚ :=
  if cfg.rm_type = "PERCENTAGE" then
    calculate_qty cfg.rm_type cfg.pos_value env.balance env.current_price cfg.leverage
  else if cfg.rm_type = "MARGIN" then
    calculate_qty cfg.rm_type cfg.pos_value 0 env.current_price cfg.leverage
  else if cfg.rm_type = "MARGIN_PERCENTAGE" then
    calculate_qty cfg.rm_type cfg.pos_value env.balance env.current_price cfg.leverage
  else cfg.pos_value

/-- The protective orders submitted after a confirmed entry
(`adhoc_trade.py`, lines 262–273): one `STOP_MARKET` order at the full
quantity, then one `LIMIT` order per target, each at
`chunk_qty = float(f"{qty / 4:.3f}")` — the divisor is the literal 4,
independent of how many targets are configured. -/
def protective_orders (symbol sl_side : String) (qty sl_price : ℚ)
    (targets : List ℚ) : List Action :=
  Action.placeOrder symbol sl_side qty "STOP_MARKET" none (some sl_price)
    :: targets.map (fun tp =>
        Action.placeOrder symbol sl_side (fmt3 (qty / 4)) "LIMIT" (some tp) none)

/-- The take-profit order ids recorded in the saved trade: one per
placement whose response carried a truthy id (lines 269–273). -/
def collectTpIds (targets : List ℚ) (resps : List (Option String)) : List String :=
  (targets.zip resps).filterMap (fun p =>
    match p.2 with
    | some s => if s ≠ "" then some s else none
    | none => none)

/-- The NEW TRADE branch of `main` (`adhoc_trade.py`, lines 169–292) as a
function of its configuration, the external responses, and the creation
time (`now`, which names the record).  The emitted `Action` trace records
every remote call in order.  Note line 256: the entry basis is
`entry_price_executed = current_price` — a fallback; no fill price is read
back from the gateway — so the post-entry re-planning runs on the same
price the pre-trade plan used. -/
def tradeOpen (cfg : OpenCfg) (env : OpenEnv) (now : ℕ) : OpenResult × List Action :=
  let symbol := "B-BTC_USDT"
  let pre := [Action.setLeverage symbol cfg.leverage,
              Action.fetchKlines symbol "15m" 5,
              Action.getBalance "USDT"]
  let qty := roundedQty (openQty cfg env)
  if qty ≤ 0 then (.invalidQuantity, pre)
  else
    let sl_price := get_candle_based_stop_loss env.current_price cfg.side
      env.prev_high env.prev_low cfg.sl_multiplier
    let targets := calculate_fixed_point_targets env.current_price cfg.side cfg.tp_points
    if env.confirmed = false then (.notConfirmed, pre)
    else
      let order_side := if cfg.side = "LONG" then "buy" else "sell"
      let acts := pre ++ [Action.placeOrder symbol order_side qty "MARKET" none none]
      if optTruthy env.entry_id = false then (.entryFailed, acts)
      else
        let entry_price_executed := env.current_price
        let sl_price2 := get_candle_based_stop_loss entry_price_executed cfg.side
          env.prev_high env.prev_low cfg.sl_multiplier
        let targets2 := calculate_fixed_point_targets entry_price_executed cfg.side cfg.tp_points
        let sl_side := if order_side = "buy" then "sell" else "buy"
        let acts2 := acts ++ protective_orders symbol sl_side qty sl_price2 targets2
        let record : TradeRecord :=
          { id := toString now
            symbol := symbol
            side := cfg.side
            qty := qty
            entry_price := entry_price_executed
            sl_order_id := env.sl_id
            tp_order_ids := collectTpIds targets2 env.tp_ids
            targets := targets2
            monitor_trigger_level := cfg.monitor_trigger
            sl_moved := false }
        (.opened record, acts2)

/-! ## Concrete demonstration data

Fixed configurations, environments, and expected results used by the
counterexample and witness theorems below. -/

/-- A one-record stored collection, as written by `main`. -/
def c6Old : List Dict :=
  [[("id", JVal.jstr "1700000000"), ("sl_moved", JVal.jbool false)]]

/-- The collection after a second trade is added. -/
def c6New : List Dict :=
  c6Old ++ [[("id", JVal.jstr "1700000001"), ("sl_moved", JVal.jbool false)]]

/-- The configuration of the C3 scenario: `FixedQuantity(0.0005)` (mapped
to `FIXED_SIZE` with `pos_value = 0.0005`). -/
def c3Cfg : OpenCfg :=
  { side := "LONG", leverage := 10, sl_multiplier := 2,
    tp_points := [300, 500, 800, 1000], monitor_trigger := 1,
    rm_type := "FIXED_SIZE", pos_value := 5/10000 }

/-- A fully co-operative environment: every remote call would succeed, so
any abort is due to the sizing check alone. -/
def c3Env : OpenEnv :=
  { current_price := 50000, prev_high := 50100, prev_low := 50000,
    balance := 1000, confirmed := true, entry_id := some "entry-1",
    sl_id := some "sl-1", tp_ids := [some "tp-1"] }

/-- The configuration of the C2 counterexample: only two take-profit
targets are configured, with a fixed quantity of 0.008. -/
def c2Cfg : OpenCfg :=
  { side := "LONG", leverage := 10, sl_multiplier := 2,
    tp_points := [300, 500], monitor_trigger := 0,
    rm_type := "FIXED_SIZE", pos_value := 8/1000 }

/-- A fully co-operative environment for the C2 counterexample. -/
def c2Env : OpenEnv :=
  { current_price := 50000, prev_high := 50100, prev_low := 50000,
    balance := 1000, confirmed := true, entry_id := some "entry-1",
    sl_id := some "sl-1", tp_ids := [some "tp-1", some "tp-2"] }

/-- The record the C2 counterexample run persists. -/
def c2Record : TradeRecord :=
  { id := "0", symbol := "B-BTC_USDT", side := "LONG", qty := 8/1000,
    entry_price := 50000, sl_order_id := some "sl-1",
    tp_order_ids := ["tp-1", "tp-2"], targets := [50300, 50500],
    monitor_trigger_level := 0, sl_moved := false }

/-- The configuration of the C5 demonstration: a fixed 0.003 quantity and
the four default targets. -/
def c5Cfg : OpenCfg :=
  { side := "LONG", leverage := 10, sl_multiplier := 2,
    tp_points := [300, 500, 800, 1000], monitor_trigger := 1,
    rm_type := "FIXED_SIZE", pos_value := 3/1000 }

/-- A fully co-operative environment for the C5 demonstration: the §8
scenario of the specification (price 50000, reference candle
50000–50100). -/
def c5Env : OpenEnv :=
  { current_price := 50000, prev_high := 50100, prev_low := 50000,
    balance := 1000, confirmed := true, entry_id := some "entry-1",
    sl_id := some "sl-1",
    tp_ids := [some "tp-1", some "tp-2", some "tp-3", some "tp-4"] }

/-- The record the C5 demonstration run persists. -/
def c5Record : TradeRecord :=
  { id := "0", symbol := "B-BTC_USDT", side := "LONG", qty := 3/1000,
    entry_price := 50000, sl_order_id := some "sl-1",
    tp_order_ids := ["tp-1", "tp-2", "tp-3", "tp-4"],
    targets := [50300, 50500, 50800, 51000],
    monitor_trigger_level := 1, sl_moved := false }

/-! ## Helper lemmas -/

theorem pyUpper_LONG : pyUpper "LONG" = "LONG" := by decide

theorem pyUpper_SHORT : pyUpper "SHORT" = "SHORT" := by decide

/-! ## Claim C7 — risk-multiple targets -/

/-- C7: for every direction in `{LONG, SHORT}`, entry price, and stop
price, `calculate_targets` returns exactly 4 targets; when the risk
distance `|entry − stop|` is positive they sit at 1,2,3,4 times that
distance away from entry in the profit direction and are strictly
monotonic in that direction; when the risk distance is zero the result is
four copies of the entry price. -/
theorem calculate_targets_risk_multiples (entry sl : ℚ) (d : String)
    (hd : d = "LONG" ∨ d = "SHORT") :
    (calculate_targets entry d sl).length = 4 ∧
    (|entry - sl| = 0 → calculate_targets entry d sl = List.replicate 4 entry) ∧
    (0 < |entry - sl| →
      calculate_targets entry d sl =
        (if d = "LONG" then
          [entry + |entry - sl| * 1, entry + |entry - sl| * 2,
           entry + |entry - sl| * 3, entry + |entry - sl| * 4]
         else
          [entry - |entry - sl| * 1, entry - |entry - sl| * 2,
           entry - |entry - sl| * 3, entry - |entry - sl| * 4]) ∧
      List.Chain' (fun a b => if d = "LONG" then a < b else b < a)
        (calculate_targets entry d sl)) := by
  have hrange : List.range' 1 4 = [1, 2, 3, 4] := by decide
  rcases hd with h | h <;> subst h
  · have heq : 0 < |entry - sl| → calculate_targets entry "LONG" sl =
        [entry + |entry - sl| * 1, entry + |entry - sl| * 2,
         entry + |entry - sl| * 3, entry + |entry - sl| * 4] := by
      intro h0
      simp [calculate_targets, ne_of_gt h0, hrange, pyUpper_LONG]
    refine ⟨?_, ?_, ?_⟩
    · by_cases h0 : |entry - sl| = 0 <;>
        simp [calculate_targets, h0, hrange]
    · intro h0
      simp [calculate_targets, h0]
    · intro h0
      have e := heq h0
      refine ⟨by rw [if_pos rfl]; exact e, ?_⟩
      have hfun : (fun a b : ℚ => if ("LONG" : String) = "LONG" then a < b else b < a)
          = fun a b : ℚ => a < b := by
        funext a b; simp
      rw [e, hfun]
      simp only [List.chain'_cons, List.chain'_singleton, and_true]
      refine ⟨by linarith, by linarith, by linarith⟩
  · have hne' : ("SHORT" : String) ≠ "LONG" := by decide
    have heq : 0 < |entry - sl| → calculate_targets entry "SHORT" sl =
        [entry - |entry - sl| * 1, entry - |entry - sl| * 2,
         entry - |entry - sl| * 3, entry - |entry - sl| * 4] := by
      intro h0
      simp [calculate_targets, ne_of_gt h0, hrange, pyUpper_SHORT, hne']
    refine ⟨?_, ?_, ?_⟩
    · by_cases h0 : |entry - sl| = 0 <;>
        simp [calculate_targets, h0, hrange]
    · intro h0
      simp [calculate_targets, h0]
    · intro h0
      have e := heq h0
      refine ⟨by rw [if_neg hne']; exact e, ?_⟩
      have hfun : (fun a b : ℚ => if ("SHORT" : String) = "LONG" then a < b else b < a)
          = fun a b : ℚ => b < a := by
        funext a b; simp [hne']
      rw [e, hfun]
      simp only [List.chain'_cons, List.chain'_singleton, and_true]
      refine ⟨by linarith, by linarith, by linarith⟩

/-- Witness for C7 at `entry = 100`, `stop = 90`, direction `LONG`. -/
theorem calculate_targets_risk_multiples_witness :
    (("LONG" : String) = "LONG" ∨ ("LONG" : String) = "SHORT") ∧
    ((calculate_targets 100 "LONG" 90).length = 4 ∧
     (|(100 : ℚ) - 90| = 0 → calculate_targets 100 "LONG" 90 = List.replicate 4 100) ∧
     (0 < |(100 : ℚ) - 90| →
       calculate_targets 100 "LONG" 90 =
         (if ("LONG" : String) = "LONG" then
           [100 + |(100 : ℚ) - 90| * 1, 100 + |(100 : ℚ) - 90| * 2,
            100 + |(100 : ℚ) - 90| * 3, 100 + |(100 : ℚ) - 90| * 4]
          else
           [100 - |(100 : ℚ) - 90| * 1, 100 - |(100 : ℚ) - 90| * 2,
            100 - |(100 : ℚ) - 90| * 3, 100 - |(100 : ℚ) - 90| * 4]) ∧
       List.Chain' (fun a b => if ("LONG" : String) = "LONG" then a < b else b < a)
         (calculate_targets 100 "LONG" 90))) :=
  ⟨Or.inl rfl, calculate_targets_risk_multiples 100 90 "LONG" (Or.inl rfl)⟩

/-! ## Claim C9 — store mutations on a missing id -/

/-- C9: when no trade in the stored collection has the given id,
`update_trade` leaves the stored collection unchanged (it falls off its
loop without saving, raising nothing — the embedding is total), and
`delete_trade` likewise stores the collection unchanged. -/
theorem store_missing_id_noop (trades : List Dict) (tid : JVal) (key : String) (v : JVal)
    (h : ∀ t ∈ trades, JVal.eqb (dictGet t "id") tid = false) :
    update_trade trades tid key v = trades ∧ delete_trade trades tid = trades := by
  constructor
  · induction trades with
    | nil => rfl
    | cons t ts ih =>
      have ht := h t (List.mem_cons_self t ts)
      have hts : ∀ u ∈ ts, JVal.eqb (dictGet u "id") tid = false := fun u hu =>
        h u (List.mem_cons_of_mem t hu)
      simp [update_trade, ht, ih hts]
  · unfold delete_trade
    rw [List.filter_eq_self]
    intro t ht
    simp [h t ht]

/-- Witness for C9: a two-record store, updating and removing an id that
is not present. -/
theorem store_missing_id_noop_witness :
    (∀ t ∈ [[("id", JVal.jstr "1700000000")], [("id", JVal.jstr "1700000001")]],
        JVal.eqb (dictGet t "id") (JVal.jstr "1799999999") = false) ∧
    (update_trade [[("id", JVal.jstr "1700000000")], [("id", JVal.jstr "1700000001")]]
        (JVal.jstr "1799999999") "sl_moved" (JVal.jbool true) =
      [[("id", JVal.jstr "1700000000")], [("id", JVal.jstr "1700000001")]] ∧
     delete_trade [[("id", JVal.jstr "1700000000")], [("id", JVal.jstr "1700000001")]]
        (JVal.jstr "1799999999") =
      [[("id", JVal.jstr "1700000000")], [("id", JVal.jstr "1700000001")]]) := by
  have h : ∀ t ∈ [[("id", JVal.jstr "1700000000")], [("id", JVal.jstr "1700000001")]],
      JVal.eqb (dictGet t "id") (JVal.jstr "1799999999") = false := by
    intro t ht
    simp only [List.mem_cons, List.not_mem_nil, or_false] at ht
    rcases ht with rfl | rfl <;> simp [dictGet, JVal.eqb]
  exact ⟨h, store_missing_id_noop _ _ "sl_moved" (JVal.jbool true) h⟩

/-! ## Claim C10 — monitor with no stop-loss order id -/

/-- C10: when the persisted record has no stop-loss order id, the monitor
returns before entering the polling loop: it emits no remote call at all
(in particular no price fetch and no gateway call) and leaves the stored
collection unchanged, whatever the trigger level and targets are. -/
theorem monitor_without_sl_id_returns (t : TradeRecord) (store : List TradeRecord)
    (envs : List MonEnv) (h : t.sl_order_id = none) :
    (monitorTrade t store envs).2 = [] ∧
    (monitorTrade t store envs).1.store = store ∧
    (monitorTrade t store envs).1.sl_moved = t.sl_moved := by
  simp [monitorTrade, h, optTruthy]

/-- Witness for C10: a record whose `sl_order_id` is `None`, with a
trigger-eligible environment supplied to the loop. -/
theorem monitor_without_sl_id_returns_witness :
    ({ id := "1700000000", symbol := "B-BTC_USDT", side := "LONG", qty := 8/1000,
       entry_price := 50000, sl_order_id := none, tp_order_ids := [],
       targets := [50300, 50500, 50800, 51000], monitor_trigger_level := 1,
       sl_moved := false : TradeRecord }.sl_order_id = none) ∧
    ((monitorTrade
        { id := "1700000000", symbol := "B-BTC_USDT", side := "LONG", qty := 8/1000,
          entry_price := 50000, sl_order_id := none, tp_order_ids := [],
          targets := [50300, 50500, 50800, 51000], monitor_trigger_level := 1,
          sl_moved := false } []
        [{ price := some 50301, edit_code := some 200, place_id := none }]).2 = [] ∧
     (monitorTrade
        { id := "1700000000", symbol := "B-BTC_USDT", side := "LONG", qty := 8/1000,
          entry_price := 50000, sl_order_id := none, tp_order_ids := [],
          targets := [50300, 50500, 50800, 51000], monitor_trigger_level := 1,
          sl_moved := false } []
        [{ price := some 50301, edit_code := some 200, place_id := none }]).1.store = [] ∧
     (monitorTrade
        { id := "1700000000", symbol := "B-BTC_USDT", side := "LONG", qty := 8/1000,
          entry_price := 50000, sl_order_id := none, tp_order_ids := [],
          targets := [50300, 50500, 50800, 51000], monitor_trigger_level := 1,
          sl_moved := false } []
        [{ price := some 50301, edit_code := some 200, place_id := none }]).1.sl_moved =
       ({ id := "1700000000", symbol := "B-BTC_USDT", side := "LONG", qty := 8/1000,
          entry_price := 50000, sl_order_id := none, tp_order_ids := [],
          targets := [50300, 50500, 50800, 51000], monitor_trigger_level := 1,
          sl_moved := false : TradeRecord }).sl_moved) :=
  ⟨rfl, monitor_without_sl_id_returns _ _ _ rfl⟩

/-! ## Claim C1 — breakeven migration fires at most once -/

/-- Once `sl_moved` is true, a monitor iteration only fetches the price:
it changes nothing and issues no gateway call. -/
theorem monitorStep_sl_moved (t : TradeRecord) (s : MonState) (e : MonEnv)
    (h : s.sl_moved = true) :
    monitorStep t s e = (s, [Action.fetchKlines t.symbol "1m" 1]) := by
  unfold monitorStep
  cases e.price <;> simp [h]

/-- Once `sl_moved` is true, a whole run of the loop only fetches prices. -/
theorem monitorRun_sl_moved (t : TradeRecord) (s : MonState) (envs : List MonEnv)
    (h : s.sl_moved = true) :
    monitorRun t s envs =
      (s, List.replicate envs.length (Action.fetchKlines t.symbol "1m" 1)) := by
  induction envs with
  | nil => rfl
  | cons e es ih =>
    simp [monitorRun, monitorStep_sl_moved t s e h, ih, List.replicate_succ]

/-- C1: once `sl_moved` has been set true it never reverts: every
subsequent execution of the loop leaves the state (flag, order id, store)
unchanged and issues no edit, cancel, or placement call; in particular,
after any iteration that ends with the flag set — e.g. the first of two
consecutive trigger-eligible iterations, once its migration succeeds — the
following iteration issues no further migration call. -/
theorem stop_moved_at_most_once (t : TradeRecord) (s : MonState) (envs : List MonEnv)
    (h : s.sl_moved = true) :
    (monitorRun t s envs).1 = s ∧
    ((monitorRun t s envs).2).filter Action.isMigrationCall = [] ∧
    (∀ (s1 : MonState) (e1 e2 : MonEnv), (monitorStep t s1 e1).1.sl_moved = true →
      ((monitorStep t (monitorStep t s1 e1).1 e2).2).filter Action.isMigrationCall = []) := by
  refine ⟨?_, ?_, ?_⟩
  · rw [monitorRun_sl_moved t s envs h]
  · rw [monitorRun_sl_moved t s envs h]
    rw [List.filter_eq_nil_iff]
    intro a ha
    rw [List.eq_of_mem_replicate ha]
    simp [Action.isMigrationCall]
  · intro s1 e1 e2 h1
    rw [monitorStep_sl_moved t _ e2 h1]
    simp [Action.isMigrationCall]

/-- Witness for C1: a state whose flag is already set, run over one
further trigger-eligible iteration. -/
theorem stop_moved_at_most_once_witness :
    (({ sl_order_id := "sl-1", sl_moved := true, store := [] : MonState }).sl_moved = true) ∧
    ((monitorRun
        { id := "1700000000", symbol := "B-BTC_USDT", side := "LONG", qty := 8/1000,
          entry_price := 50000, sl_order_id := some "sl-1", tp_order_ids := [],
          targets := [50300, 50500, 50800, 51000], monitor_trigger_level := 1,
          sl_moved := true }
        { sl_order_id := "sl-1", sl_moved := true, store := [] }
        [{ price := some 50301, edit_code := some 200, place_id := none }]).1 =
       { sl_order_id := "sl-1", sl_moved := true, store := [] } ∧
     ((monitorRun
        { id := "1700000000", symbol := "B-BTC_USDT", side := "LONG", qty := 8/1000,
          entry_price := 50000, sl_order_id := some "sl-1", tp_order_ids := [],
          targets := [50300, 50500, 50800, 51000], monitor_trigger_level := 1,
          sl_moved := true }
        { sl_order_id := "sl-1", sl_moved := true, store := [] }
        [{ price := some 50301, edit_code := some 200, place_id := none }]).2).filter
        Action.isMigrationCall = [] ∧
     (∀ (s1 : MonState) (e1 e2 : MonEnv),
       (monitorStep
          { id := "1700000000", symbol := "B-BTC_USDT", side := "LONG", qty := 8/1000,
            entry_price := 50000, sl_order_id := some "sl-1", tp_order_ids := [],
            targets := [50300, 50500, 50800, 51000], monitor_trigger_level := 1,
            sl_moved := true } s1 e1).1.sl_moved = true →
       ((monitorStep
          { id := "1700000000", symbol := "B-BTC_USDT", side := "LONG", qty := 8/1000,
            entry_price := 50000, sl_order_id := some "sl-1", tp_order_ids := [],
            targets := [50300, 50500, 50800, 51000], monitor_trigger_level := 1,
            sl_moved := true }
          (monitorStep
            { id := "1700000000", symbol := "B-BTC_USDT", side := "LONG", qty := 8/1000,
              entry_price := 50000, sl_order_id := some "sl-1", tp_order_ids := [],
              targets := [50300, 50500, 50800, 51000], monitor_trigger_level := 1,
              sl_moved := true } s1 e1).1 e2).2).filter Action.isMigrationCall = [])) :=
  ⟨rfl, stop_moved_at_most_once _ _ _ rfl⟩

/-! ## Claim C4 — failed migration leaves the flag unset and retries -/

/-- C4: when a trigger-eligible iteration's in-place edit fails and the
replacement placement also fails (no truthy order id comes back),
`sl_moved` is not set — the whole monitor state, including the persisted
store, is exactly as before — and any later trigger-eligible iteration
issues the edit call again, retrying the migration from scratch. -/
theorem migration_failure_keeps_flag
    (t : TradeRecord) (s : MonState) (e : MonEnv) (p : ℚ)
    (hm : s.sl_moved = false)
    (hp : e.price = some p)
    (hlvl : 0 < t.monitor_trigger_level)
    (hidx : t.monitor_trigger_level - 1 < (t.targets.length : ℤ))
    (hhit : hitCheck t.side p (t.targets.getD (t.monitor_trigger_level - 1).toNat 0) = true)
    (hedit : e.edit_code ≠ some 200)
    (hplace : ∀ oid, e.place_id = some (some oid) → oid = "") :
    (monitorStep t s e).1 = s ∧
    (monitorStep t s e).1.sl_moved = false ∧
    (monitorStep t s e).1.store = s.store ∧
    (∀ (e2 : MonEnv) (p2 : ℚ), e2.price = some p2 →
      hitCheck t.side p2 (t.targets.getD (t.monitor_trigger_level - 1).toNat 0) = true →
      Action.editOrder s.sl_order_id t.entry_price ∈
        (monitorStep t (monitorStep t s e).1 e2).2) := by
  have hle : (0 : ℤ) ≤ t.monitor_trigger_level - 1 := by omega
  have key : (monitorStep t s e).1 = s := by
    unfold monitorStep
    rw [hp]
    simp only [hlvl, hm, and_self, if_true, true_and, if_pos (And.intro hle hidx), hhit,
      if_pos trivial, if_neg hedit]
    rcases hpl : e.place_id with _ | oid
    · rfl
    · rcases oid with _ | oid
      · rfl
      · have : oid = "" := hplace oid hpl
        subst this
        simp
  refine ⟨key, by rw [key]; exact hm, by rw [key], ?_⟩
  intro e2 p2 hp2 hhit2
  rw [key]
  unfold monitorStep
  rw [hp2]
  simp only [hlvl, hm, and_self, if_true, true_and, if_pos (And.intro hle hidx), hhit2,
    if_pos trivial]
  by_cases hec : e2.edit_code = some 200
  · simp [hec]
  · simp only [if_neg hec]
    rcases e2.place_id with _ | oid
    · simp
    · rcases oid with _ | oid
      · simp
      · by_cases hoid : oid = "" <;> simp [hoid]

/-- Witness for C4: trigger level 1 is hit at 50300, the edit returns no
success code, and the replacement placement returns no id. -/
theorem migration_failure_keeps_flag_witness :
    (({ sl_order_id := "sl-1", sl_moved := false, store := [] : MonState }).sl_moved = false) ∧
    (({ price := some 50300, edit_code := none, place_id := none : MonEnv }).price
       = some 50300) ∧
    (0 < ({ id := "1700000000", symbol := "B-BTC_USDT", side := "LONG", qty := 8/1000,
            entry_price := 50000, sl_order_id := some "sl-1", tp_order_ids := [],
            targets := [50300, 50500, 50800, 51000], monitor_trigger_level := 1,
            sl_moved := false : TradeRecord }).monitor_trigger_level) ∧
    (hitCheck "LONG" 50300 50300 = true) ∧
    ((monitorStep
        { id := "1700000000", symbol := "B-BTC_USDT", side := "LONG", qty := 8/1000,
          entry_price := 50000, sl_order_id := some "sl-1", tp_order_ids := [],
          targets := [50300, 50500, 50800, 51000], monitor_trigger_level := 1,
          sl_moved := false }
        { sl_order_id := "sl-1", sl_moved := false, store := [] }
        { price := some 50300, edit_code := none, place_id := none }).1 =
      { sl_order_id := "sl-1", sl_moved := false, store := [] }) := by
  have h := migration_failure_keeps_flag
    { id := "1700000000", symbol := "B-BTC_USDT", side := "LONG", qty := 8/1000,
      entry_price := 50000, sl_order_id := some "sl-1", tp_order_ids := [],
      targets := [50300, 50500, 50800, 51000], monitor_trigger_level := 1,
      sl_moved := false }
    { sl_order_id := "sl-1", sl_moved := false, store := [] }
    { price := some 50300, edit_code := none, place_id := none }
    50300 rfl rfl (by norm_num) (by norm_num)
    (by norm_num [hitCheck]) (by simp) (by intro oid hx; simp at hx)
  exact ⟨rfl, rfl, by norm_num, by norm_num [hitCheck], h.1⟩

/-! ## Claim C8 — resume monitors exactly the most recently added trade -/

/-- C8: with an empty persisted collection, resume performs no monitoring
at all; with a non-empty collection it monitors exactly one trade — the
most recently added record (the last one, since `add_trade` appends) — and
re-attaching itself (zero loop iterations) places no order and issues no
remote call. -/
theorem resume_monitors_most_recent (ts : List TradeRecord) (t : TradeRecord)
    (envs : List MonEnv) :
    resumeFlow [] envs = none ∧
    resumeFlow (add_trade ts t) envs = some (monitorTrade t (add_trade ts t) envs) ∧
    (∀ r, resumeFlow (add_trade ts t) [] = some r → r.2 = []) := by
  refine ⟨rfl, ?_, ?_⟩
  · simp [resumeFlow, add_trade, List.getLast?_concat]
  · intro r hr
    simp only [resumeFlow, add_trade, List.getLast?_concat, Option.some.injEq] at hr
    subst hr
    unfold monitorTrade
    split
    · rfl
    · rfl

/-- Witness for C8 on a two-record store. -/
theorem resume_monitors_most_recent_witness :
    resumeFlow [] [] = none ∧
    resumeFlow
      (add_trade
        [{ id := "1700000000", symbol := "B-BTC_USDT", side := "LONG", qty := 8/1000,
           entry_price := 50000, sl_order_id := some "sl-1", tp_order_ids := [],
           targets := [50300, 50500, 50800, 51000], monitor_trigger_level := 1,
           sl_moved := false }]
        { id := "1700000099", symbol := "B-BTC_USDT", side := "SHORT", qty := 2/1000,
          entry_price := 49000, sl_order_id := some "sl-2", tp_order_ids := [],
          targets := [48700], monitor_trigger_level := 0, sl_moved := false }) [] =
      some (monitorTrade
        { id := "1700000099", symbol := "B-BTC_USDT", side := "SHORT", qty := 2/1000,
          entry_price := 49000, sl_order_id := some "sl-2", tp_order_ids := [],
          targets := [48700], monitor_trigger_level := 0, sl_moved := false }
        (add_trade
          [{ id := "1700000000", symbol := "B-BTC_USDT", side := "LONG", qty := 8/1000,
             entry_price := 50000, sl_order_id := some "sl-1", tp_order_ids := [],
             targets := [50300, 50500, 50800, 51000], monitor_trigger_level := 1,
             sl_moved := false }]
          { id := "1700000099", symbol := "B-BTC_USDT", side := "SHORT", qty := 2/1000,
            entry_price := 49000, sl_order_id := some "sl-2", tp_order_ids := [],
            targets := [48700], monitor_trigger_level := 0, sl_moved := false }) []) ∧
    (∀ r, resumeFlow
        (add_trade
          [{ id := "1700000000", symbol := "B-BTC_USDT", side := "LONG", qty := 8/1000,
             entry_price := 50000, sl_order_id := some "sl-1", tp_order_ids := [],
             targets := [50300, 50500, 50800, 51000], monitor_trigger_level := 1,
             sl_moved := false }]
          { id := "1700000099", symbol := "B-BTC_USDT", side := "SHORT", qty := 2/1000,
            entry_price := 49000, sl_order_id := some "sl-2", tp_order_ids := [],
            targets := [48700], monitor_trigger_level := 0, sl_moved := false }) [] = some r →
      r.2 = []) :=
  resume_monitors_most_recent _ _ []

/-! ## Claim C6 — store writes are not atomic -/

/-- Counterexample to C6: while `save_trades` rewrites the collection from
`c6Old` to `c6New`, a reader can observe the truncated in-place write — a
state that is neither the old nor the new collection — and `load_trades`
turns that observation into the empty collection, not `c6Old`. -/
theorem store_write_counterexample :
    (none ∈ save_trades_states c6Old c6New) ∧
    (none : Option (List Dict)) ≠ some c6Old ∧
    (none : Option (List Dict)) ≠ some c6New ∧
    load_trades none ≠ c6Old := by
  refine ⟨?_, ?_, ?_, ?_⟩
  · simp [save_trades_states]
  · simp
  · simp
  · simp [load_trades, c6Old]

/-- C6 as amended: `save_trades` truncates `trades.json` in place
(`open(..., 'w')`) and then streams the new contents, so every mutation
exposes an intermediate observable state that is neither the old nor the
new collection; a reader at that state sees a partially written file,
which `load_trades` degrades to the empty collection.  No
temporary-location-plus-rename step provides all-or-nothing visibility. -/
theorem store_write_not_atomic (old new : List Dict) :
    ∃ v ∈ save_trades_states old new,
      v ≠ some old ∧ v ≠ some new ∧ load_trades v = [] := by
  exact ⟨none, by simp [save_trades_states], by simp, by simp, rfl⟩

/-! ## Claim C3 — quantity rounding and the InvalidQuantity abort -/

/-- Python's `round` lands within half a unit of its argument. -/
theorem pyRound_abs_sub_le (q : ℚ) : |(pyRound q : ℚ) - q| ≤ 1/2 := by
  unfold pyRound
  have h0 : (⌊q⌋ : ℚ) ≤ q := Int.floor_le q
  have h1 : q < ⌊q⌋ + 1 := Int.lt_floor_add_one q
  split_ifs with hf1 hf2 hf3
  · rw [abs_le]; constructor <;> push_cast <;> linarith
  · rw [abs_le]; constructor <;> push_cast <;> linarith
  · rw [abs_le]; constructor <;> push_cast <;> linarith
  · rw [abs_le]; constructor <;> push_cast <;> linarith

/-- Counterexample to C3 as stated: the quantity is *not* rounded down.
`round` is Python's round-half-to-even, which can round up: a raw quantity
of 0.0016 becomes 0.002 — strictly larger than the input — under the
`main` rounding pipeline. -/
theorem qty_rounding_counterexample :
    roundedQty (16/10000) = 2/1000 ∧ (16/10000 : ℚ) < 2/1000 := by
  constructor
  · norm_num [roundedQty, roundToStep, step_size, fmt3, pyRound]
  · norm_num

/-- C3 as amended: the computed quantity is rounded to the *nearest*
multiple of the lot step (Python banker's rounding — ties to even, and it
may round up, not down) per `round(quantity / step) * step`; whenever the
rounded quantity is ≤ 0 the open attempt ends with `InvalidQuantity`
before any order placement; in particular `FixedQuantity(0.0005)` with the
0.001 lot step rounds to 0, sizing fails, and no order is placed. -/
theorem qty_rounding_nearest_and_abort (q step : ℚ) (hstep : 0 < step)
    (cfg : OpenCfg) (env : OpenEnv) (now : ℕ) :
    (∃ n : ℤ, roundToStep q step = (n : ℚ) * step) ∧
    |roundToStep q step - q| ≤ step / 2 ∧
    (roundedQty (openQty cfg env) ≤ 0 →
      (tradeOpen cfg env now).1 = OpenResult.invalidQuantity ∧
      ((tradeOpen cfg env now).2.filter Action.isOrderPlacement) = []) ∧
    ((tradeOpen c3Cfg c3Env 0).1 = OpenResult.invalidQuantity ∧
     ((tradeOpen c3Cfg c3Env 0).2.filter Action.isOrderPlacement) = []) := by
  have habort : ∀ (cfg' : OpenCfg) (env' : OpenEnv) (now' : ℕ),
      roundedQty (openQty cfg' env') ≤ 0 →
      (tradeOpen cfg' env' now').1 = OpenResult.invalidQuantity ∧
      ((tradeOpen cfg' env' now').2.filter Action.isOrderPlacement) = [] := by
    intro cfg' env' now' hq
    unfold tradeOpen
    rw [if_pos hq]
    exact ⟨rfl, by simp [Action.isOrderPlacement]⟩
  refine ⟨⟨pyRound (q / step), rfl⟩, ?_, habort cfg env now, ?_⟩
  · have hb := pyRound_abs_sub_le (q / step)
    have hstep' : step ≠ 0 := ne_of_gt hstep
    have hsub : roundToStep q step - q = ((pyRound (q / step) : ℚ) - q / step) * step := by
      unfold roundToStep
      field_simp
    rw [hsub, abs_mul, abs_of_pos hstep]
    calc |(pyRound (q / step) : ℚ) - q / step| * step ≤ (1/2) * step :=
        mul_le_mul_of_nonneg_right hb (le_of_lt hstep)
      _ = step / 2 := by ring
  · refine habort c3Cfg c3Env 0 ?_
    have hq : openQty c3Cfg c3Env = 5/10000 := rfl
    norm_num [roundedQty, roundToStep, step_size, fmt3, pyRound, hq]

/-- Witness for C3 (amended) at `q = 1`, `step = 1`. -/
theorem qty_rounding_nearest_and_abort_witness :
    (0 : ℚ) < 1 ∧
    ((∃ n : ℤ, roundToStep 1 1 = (n : ℚ) * 1) ∧
     |roundToStep 1 1 - 1| ≤ 1 / 2 ∧
     (roundedQty (openQty c3Cfg c3Env) ≤ 0 →
       (tradeOpen c3Cfg c3Env 0).1 = OpenResult.invalidQuantity ∧
       ((tradeOpen c3Cfg c3Env 0).2.filter Action.isOrderPlacement) = []) ∧
     ((tradeOpen c3Cfg c3Env 0).1 = OpenResult.invalidQuantity ∧
      ((tradeOpen c3Cfg c3Env 0).2.filter Action.isOrderPlacement) = [])) :=
  ⟨by norm_num, qty_rounding_nearest_and_abort 1 1 (by norm_num) c3Cfg c3Env 0⟩

/-! ## The successful open, characterised -/

/-- When the new-trade flow ends with `opened r`, the record and the full
call trace are exactly those of the success branch of `main`. -/
theorem tradeOpen_opened (cfg : OpenCfg) (env : OpenEnv) (now : ℕ) (r : TradeRecord)
    (h : (tradeOpen cfg env now).1 = OpenResult.opened r) :
    r = { id := toString now, symbol := "B-BTC_USDT", side := cfg.side,
          qty := roundedQty (openQty cfg env),
          entry_price := env.current_price,
          sl_order_id := env.sl_id,
          tp_order_ids := collectTpIds
            (calculate_fixed_point_targets env.current_price cfg.side cfg.tp_points)
            env.tp_ids,
          targets := calculate_fixed_point_targets env.current_price cfg.side cfg.tp_points,
          monitor_trigger_level := cfg.monitor_trigger,
          sl_moved := false } ∧
    (tradeOpen cfg env now).2 =
      [Action.setLeverage "B-BTC_USDT" cfg.leverage,
       Action.fetchKlines "B-BTC_USDT" "15m" 5,
       Action.getBalance "USDT",
       Action.placeOrder "B-BTC_USDT" (if cfg.side = "LONG" then "buy" else "sell")
         (roundedQty (openQty cfg env)) "MARKET" none none] ++
      protective_orders "B-BTC_USDT"
        (if (if cfg.side = "LONG" then "buy" else "sell") = "buy" then "sell" else "buy")
        (roundedQty (openQty cfg env))
        (get_candle_based_stop_loss env.current_price cfg.side env.prev_high env.prev_low
          cfg.sl_multiplier)
        (calculate_fixed_point_targets env.current_price cfg.side cfg.tp_points) := by
  by_cases h1 : roundedQty (openQty cfg env) ≤ 0
  · exfalso
    simp only [tradeOpen] at h
    rw [if_pos h1] at h
    simp at h
  · by_cases h2 : env.confirmed = false
    · exfalso
      simp only [tradeOpen] at h
      rw [if_neg h1, if_pos h2] at h
      simp at h
    · by_cases h3 : optTruthy env.entry_id = false
      · exfalso
        simp only [tradeOpen] at h
        rw [if_neg h1, if_neg h2, if_pos h3] at h
        simp at h
      · simp only [tradeOpen] at h ⊢
        rw [if_neg h1, if_neg h2, if_neg h3] at h ⊢
        simp only [OpenResult.opened.injEq] at h
        exact ⟨h.symm, by simp⟩

/-- The `LIMIT` placements among the protective orders are exactly one per
target, each at the `fmt3 (qty / 4)` chunk. -/
theorem protective_orders_limits (symbol sl_side : String) (qty sl_price : ℚ)
    (targets : List ℚ) :
    (protective_orders symbol sl_side qty sl_price targets).filter Action.isLimitPlacement
      = targets.map (fun tp =>
          Action.placeOrder symbol sl_side (fmt3 (qty / 4)) "LIMIT" (some tp) none) := by
  simp only [protective_orders, List.filter_cons, List.filter_map]
  have hstop : Action.isLimitPlacement
      (Action.placeOrder symbol sl_side qty "STOP_MARKET" none (some sl_price)) = false := by
    simp [Action.isLimitPlacement]
  rw [hstop]
  simp only [Bool.false_eq_true, if_false]
  congr 1
  rw [List.filter_eq_self]
  intro a ha
  simp [Action.isLimitPlacement, Function.comp]

/-- The `STOP_MARKET` placements among the protective orders are exactly
the one stop-loss at the full quantity. -/
theorem protective_orders_stops (symbol sl_side : String) (qty sl_price : ℚ)
    (targets : List ℚ) :
    (protective_orders symbol sl_side qty sl_price targets).filter Action.isStopPlacement
      = [Action.placeOrder symbol sl_side qty "STOP_MARKET" none (some sl_price)] := by
  simp only [protective_orders, List.filter_cons, List.filter_map]
  have hstop : Action.isStopPlacement
      (Action.placeOrder symbol sl_side qty "STOP_MARKET" none (some sl_price)) = true := by
    simp [Action.isStopPlacement]
  rw [hstop]
  simp only [if_true]
  have hnil : List.filter
      (Action.isStopPlacement ∘ fun tp =>
        Action.placeOrder symbol sl_side (fmt3 (qty / 4)) "LIMIT" (some tp) none)
      targets = [] := by
    rw [List.filter_eq_nil_iff]
    intro a ha
    simp [Action.isStopPlacement, Function.comp]
  rw [hnil]
  simp

/-! ## Claim C2 — take-profit order sizing -/

/-- Evaluation of the whole C2 counterexample run. -/
theorem c2_run_eval : tradeOpen c2Cfg c2Env 0 =
    (OpenResult.opened c2Record,
     [Action.setLeverage "B-BTC_USDT" 10,
      Action.fetchKlines "B-BTC_USDT" "15m" 5,
      Action.getBalance "USDT",
      Action.placeOrder "B-BTC_USDT" "buy" (8/1000) "MARKET" none none,
      Action.placeOrder "B-BTC_USDT" "sell" (8/1000) "STOP_MARKET" none (some 49800),
      Action.placeOrder "B-BTC_USDT" "sell" (2/1000) "LIMIT" (some 50300) none,
      Action.placeOrder "B-BTC_USDT" "sell" (2/1000) "LIMIT" (some 50500) none]) := by
  have hq : openQty c2Cfg c2Env = 8/1000 := rfl
  have hrq : roundedQty (openQty c2Cfg c2Env) = 8/1000 := by
    rw [hq]
    norm_num [roundedQty, roundToStep, step_size, fmt3, pyRound]
  have hchunk : fmt3 (1/500) = 2/1000 := by
    norm_num [fmt3, pyRound]
  have hid : toString (0 : ℕ) = "0" := rfl
  simp only [tradeOpen, hrq]
  norm_num [c2Env, c2Cfg, optTruthy, get_candle_based_stop_loss,
    calculate_fixed_point_targets, pyUpper_LONG, protective_orders, hchunk,
    collectTpIds, c2Record, hid, List.filterMap]
  simp

/-- Counterexample to C2 as stated: with two configured targets and
quantity 0.008, each take-profit limit order is sized 0.002 — the
hard-coded `qty / 4` — and not `quantity / number_of_targets = 0.004`. -/
theorem tp_chunk_counterexample :
    (tradeOpen c2Cfg c2Env 0).1 = OpenResult.opened c2Record ∧
    ((tradeOpen c2Cfg c2Env 0).2.filter Action.isLimitPlacement).map Action.placeQty =
      [some (2/1000), some (2/1000)] ∧
    c2Record.targets.length = 2 ∧
    (2/1000 : ℚ) ≠ c2Record.qty / 2 := by
  rw [c2_run_eval]
  refine ⟨rfl, ?_, rfl, by norm_num [c2Record]⟩
  simp [Action.isLimitPlacement, Action.placeQty]

/-- C2 as amended: after a confirmed entry, the stop-loss order is sized
at the full quantity, and there is one take-profit limit order per target,
each sized at `quantity / 4` formatted to three decimals — the divisor is
the literal 4 of the default four-target configuration, independent of how
many targets are actually configured (it equals
`quantity / number_of_targets` only when exactly four targets are
configured). -/
theorem tp_orders_quarter_sized (cfg : OpenCfg) (env : OpenEnv) (now : ℕ) (r : TradeRecord)
    (h : (tradeOpen cfg env now).1 = OpenResult.opened r) :
    ((tradeOpen cfg env now).2.filter Action.isLimitPlacement).length =
      cfg.tp_points.length ∧
    (∀ a ∈ (tradeOpen cfg env now).2.filter Action.isLimitPlacement,
        Action.placeQty a = some (fmt3 (r.qty / 4))) ∧
    ((tradeOpen cfg env now).2.filter Action.isStopPlacement).map Action.placeQty =
      [some r.qty] := by
  obtain ⟨hr, hacts⟩ := tradeOpen_opened cfg env now r h
  subst hr
  have hpre : [Action.setLeverage "B-BTC_USDT" cfg.leverage,
      Action.fetchKlines "B-BTC_USDT" "15m" 5,
      Action.getBalance "USDT",
      Action.placeOrder "B-BTC_USDT" (if cfg.side = "LONG" then "buy" else "sell")
        (roundedQty (openQty cfg env)) "MARKET" none none].filter
      Action.isLimitPlacement = [] := by
    simp [Action.isLimitPlacement]
  have hpreS : [Action.setLeverage "B-BTC_USDT" cfg.leverage,
      Action.fetchKlines "B-BTC_USDT" "15m" 5,
      Action.getBalance "USDT",
      Action.placeOrder "B-BTC_USDT" (if cfg.side = "LONG" then "buy" else "sell")
        (roundedQty (openQty cfg env)) "MARKET" none none].filter
      Action.isStopPlacement = [] := by
    simp [Action.isStopPlacement]
  refine ⟨?_, ?_, ?_⟩
  · rw [hacts, List.filter_append, hpre, protective_orders_limits]
    simp [calculate_fixed_point_targets]
  · intro a ha
    rw [hacts, List.filter_append, hpre, protective_orders_limits] at ha
    simp only [List.nil_append, List.mem_map] at ha
    obtain ⟨tp, htp, rfl⟩ := ha
    rfl
  · rw [hacts, List.filter_append, hpreS, protective_orders_stops]
    rfl

/-- Witness for C2 (amended), at the counterexample's own configuration. -/
theorem tp_orders_quarter_sized_witness :
    (tradeOpen c2Cfg c2Env 0).1 = OpenResult.opened c2Record ∧
    (((tradeOpen c2Cfg c2Env 0).2.filter Action.isLimitPlacement).length =
       c2Cfg.tp_points.length ∧
     (∀ a ∈ (tradeOpen c2Cfg c2Env 0).2.filter Action.isLimitPlacement,
         Action.placeQty a = some (fmt3 (c2Record.qty / 4))) ∧
     ((tradeOpen c2Cfg c2Env 0).2.filter Action.isStopPlacement).map Action.placeQty =
       [some c2Record.qty]) := by
  have h : (tradeOpen c2Cfg c2Env 0).1 = OpenResult.opened c2Record := by
    rw [c2_run_eval]
  exact ⟨h, tp_orders_quarter_sized c2Cfg c2Env 0 c2Record h⟩

/-! ## Claim C5 — the entry basis used for protective orders -/

/-- Evaluation of the whole C5 demonstration run. -/
theorem c5_run_eval : tradeOpen c5Cfg c5Env 0 =
    (OpenResult.opened c5Record,
     [Action.setLeverage "B-BTC_USDT" 10,
      Action.fetchKlines "B-BTC_USDT" "15m" 5,
      Action.getBalance "USDT",
      Action.placeOrder "B-BTC_USDT" "buy" (3/1000) "MARKET" none none,
      Action.placeOrder "B-BTC_USDT" "sell" (3/1000) "STOP_MARKET" none (some 49800),
      Action.placeOrder "B-BTC_USDT" "sell" (1/1000) "LIMIT" (some 50300) none,
      Action.placeOrder "B-BTC_USDT" "sell" (1/1000) "LIMIT" (some 50500) none,
      Action.placeOrder "B-BTC_USDT" "sell" (1/1000) "LIMIT" (some 50800) none,
      Action.placeOrder "B-BTC_USDT" "sell" (1/1000) "LIMIT" (some 51000) none]) := by
  have hq : openQty c5Cfg c5Env = 3/1000 := rfl
  have hrq : roundedQty (openQty c5Cfg c5Env) = 3/1000 := by
    rw [hq]
    norm_num [roundedQty, roundToStep, step_size, fmt3, pyRound]
  have hchunk : fmt3 (3/4000) = 1/1000 := by
    norm_num [fmt3, pyRound]
  have hid : toString (0 : ℕ) = "0" := rfl
  simp only [tradeOpen, hrq]
  norm_num [c5Env, c5Cfg, optTruthy, get_candle_based_stop_loss,
    calculate_fixed_point_targets, pyUpper_LONG, protective_orders, hchunk,
    collectTpIds, c5Record, hid, List.filterMap]
  simp

/-- Counterexample to C5 as stated: at this concrete successful execution
the price "recorded at entry" is by construction the planning-time current
price (`entry_price_executed = current_price`, the line-256 fallback; the
gateway response contributes no fill price and `OpenEnv` has no input
through which one could arrive), so the re-planned stop-loss price and
targets are exactly the planning-time ones — they can never differ. -/
theorem replanned_prices_counterexample :
    (tradeOpen c5Cfg c5Env 0).1 = OpenResult.opened c5Record ∧
    c5Record.entry_price = c5Env.current_price ∧
    c5Record.targets =
      calculate_fixed_point_targets c5Env.current_price c5Cfg.side c5Cfg.tp_points ∧
    ((tradeOpen c5Cfg c5Env 0).2.filter Action.isStopPlacement).map Action.placeStopPrice =
      [some (get_candle_based_stop_loss c5Env.current_price c5Cfg.side c5Env.prev_high
          c5Env.prev_low c5Cfg.sl_multiplier)] ∧
    get_candle_based_stop_loss c5Env.current_price c5Cfg.side c5Env.prev_high c5Env.prev_low
      c5Cfg.sl_multiplier = 49800 := by
  have hsl : get_candle_based_stop_loss c5Env.current_price c5Cfg.side c5Env.prev_high
      c5Env.prev_low c5Cfg.sl_multiplier = 49800 := by
    norm_num [get_candle_based_stop_loss, c5Env, c5Cfg, pyUpper_LONG]
  refine ⟨by rw [c5_run_eval], rfl, ?_, ?_, hsl⟩
  · norm_num [calculate_fixed_point_targets, c5Env, c5Cfg, pyUpper_LONG, c5Record]
  · rw [c5_run_eval, hsl]
    simp [Action.isStopPlacement, Action.placeStopPrice]

/-- C5 as amended: after a confirmed entry the stop-loss price and targets
for the protective orders *are* recomputed, but from
`entry_price_executed`, which the code sets to the planning-time current
price as a fallback (no actual fill price is read back), so the re-planned
protective prices always coincide with the planning-time plan and the
persisted entry price is the planning price. -/
theorem replanned_prices_equal_planned (cfg : OpenCfg) (env : OpenEnv) (now : ℕ)
    (r : TradeRecord) (h : (tradeOpen cfg env now).1 = OpenResult.opened r) :
    r.entry_price = env.current_price ∧
    r.targets = calculate_fixed_point_targets env.current_price cfg.side cfg.tp_points ∧
    ((tradeOpen cfg env now).2.filter Action.isStopPlacement).map Action.placeStopPrice =
      [some (get_candle_based_stop_loss env.current_price cfg.side env.prev_high
          env.prev_low cfg.sl_multiplier)] := by
  obtain ⟨hr, hacts⟩ := tradeOpen_opened cfg env now r h
  subst hr
  have hpreS : [Action.setLeverage "B-BTC_USDT" cfg.leverage,
      Action.fetchKlines "B-BTC_USDT" "15m" 5,
      Action.getBalance "USDT",
      Action.placeOrder "B-BTC_USDT" (if cfg.side = "LONG" then "buy" else "sell")
        (roundedQty (openQty cfg env)) "MARKET" none none].filter
      Action.isStopPlacement = [] := by
    simp [Action.isStopPlacement]
  refine ⟨rfl, rfl, ?_⟩
  rw [hacts, List.filter_append, hpreS, protective_orders_stops]
  rfl

/-- Witness for C5 (amended), at the demonstration configuration. -/
theorem replanned_prices_equal_planned_witness :
    (tradeOpen c5Cfg c5Env 0).1 = OpenResult.opened c5Record ∧
    (c5Record.entry_price = c5Env.current_price ∧
     c5Record.targets =
       calculate_fixed_point_targets c5Env.current_price c5Cfg.side c5Cfg.tp_points ∧
     ((tradeOpen c5Cfg c5Env 0).2.filter Action.isStopPlacement).map Action.placeStopPrice =
       [some (get_candle_based_stop_loss c5Env.current_price c5Cfg.side c5Env.prev_high
           c5Env.prev_low c5Cfg.sl_multiplier)]) := by
  have h : (tradeOpen c5Cfg c5Env 0).1 = OpenResult.opened c5Record := by
    rw [c5_run_eval]
  exact ⟨h, replanned_prices_equal_planned c5Cfg c5Env 0 c5Record h⟩

end AdhocTrade
